import Mathlib

set_option maxRecDepth 100000

/-!
Shallow embedding of the lex-ai backend (upload lambda, analyze lambda,
results lambda) and proofs about the claims of the specification.

Modelling conventions:
- JavaScript strings are modelled as Lean `String` / `List Char`; byte
  buffers as `List Nat` (each entry `< 256`).
- `JSON.parse` is modelled by an executable recursive-descent parser
  `parseJson` over a `Json` value type.  JSON numbers are modelled as
  integers (every number appearing in this code path — risk scores,
  severities — is an integer).
- Timestamps (`created_at`) are modelled as `Nat` (milliseconds), i.e.
  `new Date(x).getTime()` is the identity on the stored value.
- External collaborators (DynamoDB, S3, Bedrock, mammoth) are modelled by
  explicit outcome parameters: a handler receives the stored record (or
  `none`), the blob bytes, and the model / docx behaviour, and returns the
  response plus its visible effects.
-/

/-- JSON values, the target of the modelled `JSON.parse`. -/
inductive Json where
  | null : Json
  | bool (b : Bool) : Json
  | num (n : Int) : Json
  | str (s : String) : Json
  | arr (elems : List Json) : Json
  | obj (fields : List (String × Json)) : Json

/-- The whitespace characters accepted by `JSON.parse` between tokens. -/
def jsonWs (c : Char) : Bool :=
  c = ' ' || c = '\t' || c = '\n' || c = '\r'

/-- Skip JSON inter-token whitespace. -/
def skipWs (l : List Char) : List Char := l.dropWhile jsonWs

/-- Value of a hexadecimal digit, for `\u` escapes. -/
def hexVal (c : Char) : Option Nat :=
  if '0' ≤ c ∧ c ≤ '9' then some (c.toNat - 48)
  else if 'a' ≤ c ∧ c ≤ 'f' then some (c.toNat - 87)
  else if 'A' ≤ c ∧ c ≤ 'F' then some (c.toNat - 55)
  else none

/-- Body of a JSON string literal (after the opening quote), with escapes. -/
def parseStringBody : Nat → List Char → List Char → Option (String × List Char)
  | 0, _, _ => none
  | _ + 1, [], _ => none
  | fuel + 1, c :: rest, acc =>
    if c = '"' then some (String.mk acc.reverse, rest)
    else if c = '\\' then
      match rest with
      | [] => none
      | e :: rest2 =>
        if e = '"' then parseStringBody fuel rest2 ('"' :: acc)
        else if e = '\\' then parseStringBody fuel rest2 ('\\' :: acc)
        else if e = '/' then parseStringBody fuel rest2 ('/' :: acc)
        else if e = 'b' then parseStringBody fuel rest2 ('\x08' :: acc)
        else if e = 'f' then parseStringBody fuel rest2 ('\x0c' :: acc)
        else if e = 'n' then parseStringBody fuel rest2 ('\n' :: acc)
        else if e = 'r' then parseStringBody fuel rest2 ('\r' :: acc)
        else if e = 't' then parseStringBody fuel rest2 ('\t' :: acc)
        else if e = 'u' then
          match rest2 with
          | h1 :: h2 :: h3 :: h4 :: rest3 =>
            match hexVal h1, hexVal h2, hexVal h3, hexVal h4 with
            | some v1, some v2, some v3, some v4 =>
              parseStringBody fuel rest3
                (Char.ofNat (((v1 * 16 + v2) * 16 + v3) * 16 + v4) :: acc)
            | _, _, _, _ => none
          | _ => none
        else none
    else if c.toNat < 0x20 then none
    else parseStringBody fuel rest (c :: acc)

/-- Decimal digits to a natural number. -/
def digitsToNat (ds : List Char) : Nat :=
  ds.foldl (fun a c => a * 10 + (c.toNat - 48)) 0

/-- A JSON (integer) number token, with optional leading minus sign. -/
def parseNumber (l : List Char) : Option (Json × List Char) :=
  match l with
  | '-' :: rest =>
    let ds := rest.takeWhile Char.isDigit
    if ds.isEmpty then none
    else some (Json.num (-(Int.ofNat (digitsToNat ds))), rest.drop ds.length)
  | _ =>
    let ds := l.takeWhile Char.isDigit
    if ds.isEmpty then none
    else some (Json.num (Int.ofNat (digitsToNat ds)), l.drop ds.length)

mutual

/-- Recursive-descent parser for a JSON value (fuel-indexed). -/
def parseValue : Nat → List Char → Option (Json × List Char)
  | 0, _ => none
  | fuel + 1, l =>
    match skipWs l with
    | [] => none
    | c :: rest =>
      if c = '"' then
        match parseStringBody (rest.length + 1) rest [] with
        | some (s, r) => some (Json.str s, r)
        | none => none
      else if c = 't' then
        if rest.take 3 = ['r', 'u', 'e'] then some (Json.bool true, rest.drop 3)
        else none
      else if c = 'f' then
        if rest.take 4 = ['a', 'l', 's', 'e'] then some (Json.bool false, rest.drop 4)
        else none
      else if c = 'n' then
        if rest.take 3 = ['u', 'l', 'l'] then some (Json.null, rest.drop 3)
        else none
      else if c = '-' || c.isDigit then parseNumber (c :: rest)
      else if c = '[' then
        match skipWs rest with
        | ']' :: r => some (Json.arr [], r)
        | l2 => match parseElems fuel l2 with
          | some (vs, r) => some (Json.arr vs, r)
          | none => none
      else if c = '\x7b' then
        match skipWs rest with
        | '\x7d' :: r => some (Json.obj [], r)
        | l2 => match parseFields fuel l2 with
          | some (fs, r) => some (Json.obj fs, r)
          | none => none
      else none

/-- One-or-more comma-separated array elements, up to the closing bracket. -/
def parseElems : Nat → List Char → Option (List Json × List Char)
  | 0, _ => none
  | fuel + 1, l =>
    match parseValue fuel l with
    | none => none
    | some (v, r) =>
      match skipWs r with
      | ',' :: r2 =>
        match parseElems fuel r2 with
        | some (vs, r3) => some (v :: vs, r3)
        | none => none
      | ']' :: r2 => some ([v], r2)
      | _ => none

/-- One-or-more comma-separated object members, up to the closing brace. -/
def parseFields : Nat → List Char → Option (List (String × Json) × List Char)
  | 0, _ => none
  | fuel + 1, l =>
    match skipWs l with
    | '"' :: rest =>
      match parseStringBody (rest.length + 1) rest [] with
      | none => none
      | some (k, r) =>
        match skipWs r with
        | ':' :: r2 =>
          match parseValue fuel r2 with
          | none => none
          | some (v, r3) =>
            match skipWs r3 with
            | ',' :: r4 =>
              match parseFields fuel r4 with
              | some (fs, r5) => some ((k, v) :: fs, r5)
              | none => none
            | '\x7d' :: r4 => some ([(k, v)], r4)
            | _ => none
        | _ => none
    | _ => none

end

/-- The modelled `JSON.parse`: the whole string must be one JSON value. -/
def parseJson (s : String) : Option Json :=
  match parseValue (2 * s.length + 2) s.data with
  | some (j, rest) => if (skipWs rest).isEmpty then some j else none
  | none => none

/-- Field lookup in a JSON object (`none` for non-objects / absent keys). -/
def Json.getField (j : Json) (k : String) : Option Json :=
  match j with
  | Json.obj fields => (fields.find? (fun f => f.1 = k)).map (fun f => f.2)
  | _ => none

example : parseJson "\x7b\"a\": 1, \"b\": [true, null, \"x\"]\x7d" =
    some (Json.obj [("a", Json.num 1), ("b", Json.arr [Json.bool true, Json.null, Json.str "x"])]) := by
  rfl

example : parseJson "not json at all" = none := by rfl

example : parseJson "\x7b\"a\": 1" = none := by rfl

/-! ### Text extraction component (`extractTextFromFile`, analyze lambda) -/

/-- JS `\s` restricted to latin-1 characters (the only characters the byte
decodings used here can produce). -/
def jsWsChar (c : Char) : Bool :=
  c = ' ' || c = '\t' || c = '\n' || c = '\r' || c = '\x0b' || c = '\x0c' ||
  c.toNat = 0xa0

/-- JS `.` without the `s` flag: any character except a line terminator. -/
def jsDotChar (c : Char) : Bool := !(c = '\n' || c = '\r')

/-- Does the list start with the literal characters `ET`? -/
def startsET : List Char → Bool
  | 'E' :: 'T' :: _ => true
  | _ => false

/-- Greedy `\s*` followed by literal `ET`: try consuming `k` whitespace
characters, largest `k` first; return total characters consumed. -/
def tryWsETAux (l : List Char) : Nat → Option Nat
  | 0 => if startsET l then some 2 else none
  | k + 1 => if startsET (l.drop (k + 1)) then some (k + 3) else tryWsETAux l k

/-- Match `\s*ET` at the head of `l` with the greedy preference of a JS
regex engine. -/
def tryWsET (l : List Char) : Option Nat :=
  tryWsETAux l (l.takeWhile jsWsChar).length

/-- Lazy `.*?` then greedy `\s*` then literal `ET`: shortest `.*?` first. -/
def matchDotWsET : Nat → List Char → Option Nat
  | 0, _ => none
  | fuel + 1, l =>
    match tryWsET l with
    | some k => some k
    | none =>
      match l with
      | c :: rest =>
        if jsDotChar c then
          match matchDotWsET fuel rest with
          | some n => some (n + 1)
          | none => none
        else none
      | [] => none

/-- First `\s*` of the pattern, greedy with backtracking: try `k` whitespace
characters, largest first, then the rest of the pattern. -/
def matchK1Aux (l : List Char) : Nat → Option Nat
  | 0 => matchDotWsET (l.length + 1) l
  | k + 1 =>
    match matchDotWsET (l.length + 1) (l.drop (k + 1)) with
    | some n => some (k + 1 + n)
    | none => matchK1Aux l k

/-- Match of `\s*.*?\s*ET` at the head of `l` (the part of the pattern after
the literal `BT`), returning the number of characters consumed, following
the JS backtracking order. -/
def matchAfterBT (l : List Char) : Option Nat :=
  matchK1Aux l (l.takeWhile jsWsChar).length

/-- All matches of `/BT\s*.*?\s*ET/g` in scan order: at each position try to
start a match; after a match continue after its end (JS `lastIndex`). -/
def btetMatchesAux : Nat → List Char → List (List Char)
  | 0, _ => []
  | _ + 1, [] => []
  | fuel + 1, c :: rest =>
    if c = 'B' then
      match rest with
      | 'T' :: rest2 =>
        match matchAfterBT rest2 with
        | some n => (c :: 'T' :: rest2.take n) :: btetMatchesAux fuel (rest2.drop n)
        | none => btetMatchesAux fuel rest
      | _ => btetMatchesAux fuel rest
    else btetMatchesAux fuel rest

/-- `pdfText.match(/BT\s*.*?\s*ET/g) || []`. -/
def btetMatches (l : List Char) : List (List Char) :=
  btetMatchesAux (l.length + 1) l

/-- `.replace(/[^\x20-\x7E\n\r]/g, ' ')`: keep printable ASCII plus `\n`
and `\r`, replace every other character by a space. -/
def stripNonPrintable (l : List Char) : List Char :=
  l.map (fun c =>
    if (0x20 ≤ c.toNat ∧ c.toNat ≤ 0x7e) ∨ c = '\n' ∨ c = '\r' then c else ' ')

/-- JS `String.prototype.trim()` on the whitespace a latin-1/ASCII string
can contain. -/
def jsTrim (l : List Char) : List Char :=
  ((l.dropWhile jsWsChar).reverse.dropWhile jsWsChar).reverse

/-- `.replace(/\s+/g, ' ')`: collapse every whitespace run to one space. -/
def collapseWs : Nat → List Char → List Char
  | 0, _ => []
  | _ + 1, [] => []
  | fuel + 1, c :: rest =>
    if jsWsChar c then ' ' :: collapseWs fuel (rest.dropWhile jsWsChar)
    else c :: collapseWs fuel rest

/-- The character class `[a-zA-Z\s.,!?;:'"()-]` of the second-tier scan. -/
def readableChar (c : Char) : Bool :=
  (decide ('a' ≤ c) && decide (c ≤ 'z')) ||
  (decide ('A' ≤ c) && decide (c ≤ 'Z')) ||
  jsWsChar c ||
  c = '.' || c = ',' || c = '!' || c = '?' || c = ';' || c = ':' ||
  c.toNat = 39 || c.toNat = 34 || c = '(' || c = ')' || c = '-'

/-- Maximal runs of `readableChar` characters, in order (the matches of the
greedy `/[...]{20,}/g` are exactly those runs of length at least 20). -/
def readableRuns : Nat → List Char → List (List Char)
  | 0, _ => []
  | _ + 1, [] => []
  | fuel + 1, c :: rest =>
    if readableChar c then
      (c :: rest.takeWhile readableChar) :: readableRuns fuel (rest.dropWhile readableChar)
    else readableRuns fuel rest

/-- Tier 1 of PDF extraction: concatenate the `BT..ET` matches with spaces,
strip non-printable characters to spaces, and trim. -/
def pdfTier1 (pdfText : List Char) : List Char :=
  jsTrim (stripNonPrintable (List.intercalate [' '] (btetMatches pdfText)))

/-- Tier 2 of PDF extraction: join the readable runs of length at least 20
with spaces, collapse whitespace, and trim. -/
def pdfTier2 (pdfText : List Char) : List Char :=
  let runs := (readableRuns (pdfText.length + 1) pdfText).filter (fun r => 20 ≤ r.length)
  let joined := List.intercalate [' '] runs
  jsTrim (collapseWs (joined.length + 1) joined)

/-- The fixed placeholder contract text returned when PDF extraction yields
fewer than 100 characters. -/
def pdfPlaceholder : String :=
  "\n          SAMPLE SERVICE AGREEMENT\n          \n          This Service Agreement (\"Agreement\") is entered into on [Date] between [Company Name] (\"Client\") \n          and [Service Provider] (\"Provider\").\n          \n          1. SERVICES\n          Provider agrees to provide consulting services as described in Exhibit A.\n          \n          2. PAYMENT TERMS\n          Client agrees to pay Provider $5,000 per month, due within 30 days of invoice.\n          \n          3. TERMINATION\n          Either party may terminate this agreement with 30 days written notice.\n          \n          4. INTELLECTUAL PROPERTY\n          All work product shall be owned by Client upon payment.\n          \n          5. CONFIDENTIALITY\n          Both parties agree to maintain confidentiality of proprietary information.\n          \n          6. GOVERNING LAW\n          This agreement shall be governed by the laws of [State].\n          \n          7. DISPUTE RESOLUTION\n          Any disputes shall be resolved through binding arbitration.\n          \n          IN WITNESS WHEREOF, the parties have executed this Agreement.\n          \n          [Signatures]\n        "

/-- The fallback sample contract returned by the catch-all of
`extractTextFromFile` (parsing error of a supported format, or the
`Unsupported file type` throw, which is caught by the function itself). -/
def parsingFallbackText : String :=
  "\n      SAMPLE CONTRACT (PARSING ERROR - USING FALLBACK)\n      \n      This is a sample contract used for demonstration purposes when the original file could not be parsed.\n      \n      1. SERVICES: Consulting services to be provided\n      2. PAYMENT: Monthly payment terms\n      3. TERMINATION: 30 days notice required\n      4. CONFIDENTIALITY: Standard confidentiality clauses\n      \n      Note: This is fallback content due to parsing limitations.\n    "

/-- `Buffer.prototype.toString('binary')`: latin-1, one character per byte. -/
def latin1Decode (bytes : List Nat) : List Char :=
  bytes.map (fun b => Char.ofNat (b % 256))

/-- The PDF branch of `extractTextFromFile`: the three-tier heuristic. -/
def extractPdfText (bytes : List Nat) : String :=
  let pdfText := latin1Decode bytes
  let t1 := String.mk (pdfTier1 pdfText)
  let t := if t1 = "" ∨ t1.length < 50 then String.mk (pdfTier2 pdfText) else t1
  if t = "" ∨ t.length < 100 then pdfPlaceholder else t

/-- UTF-8 decoding for `Buffer.prototype.toString('utf-8')`: well-formed
sequences decode to their scalar; a malformed byte decodes to U+FFFD. -/
def utf8Decode : Nat → List Nat → List Char
  | 0, _ => []
  | _ + 1, [] => []
  | fuel + 1, b :: rest =>
    if b < 0x80 then Char.ofNat b :: utf8Decode fuel rest
    else if 0xc0 ≤ b ∧ b < 0xe0 then
      match rest with
      | b2 :: rest2 =>
        if 0x80 ≤ b2 ∧ b2 < 0xc0 then
          Char.ofNat ((b - 0xc0) * 64 + (b2 - 0x80)) :: utf8Decode fuel rest2
        else Char.ofNat 0xfffd :: utf8Decode fuel rest
      | [] => [Char.ofNat 0xfffd]
    else if 0xe0 ≤ b ∧ b < 0xf0 then
      match rest with
      | b2 :: b3 :: rest2 =>
        if (0x80 ≤ b2 ∧ b2 < 0xc0) ∧ (0x80 ≤ b3 ∧ b3 < 0xc0) then
          Char.ofNat ((b - 0xe0) * 4096 + (b2 - 0x80) * 64 + (b3 - 0x80)) ::
            utf8Decode fuel rest2
        else Char.ofNat 0xfffd :: utf8Decode fuel rest
      | _ => [Char.ofNat 0xfffd]
    else if 0xf0 ≤ b ∧ b < 0xf8 then
      match rest with
      | b2 :: b3 :: b4 :: rest2 =>
        if (0x80 ≤ b2 ∧ b2 < 0xc0) ∧ (0x80 ≤ b3 ∧ b3 < 0xc0) ∧ (0x80 ≤ b4 ∧ b4 < 0xc0) then
          Char.ofNat ((b - 0xf0) * 262144 + (b2 - 0x80) * 4096 + (b3 - 0x80) * 64 +
            (b4 - 0x80)) :: utf8Decode fuel rest2
        else Char.ofNat 0xfffd :: utf8Decode fuel rest
      | _ => [Char.ofNat 0xfffd]
    else Char.ofNat 0xfffd :: utf8Decode fuel rest

/-- Outcome of the `mammoth.extractRawText` collaborator on a DOCX buffer. -/
inductive DocxResult where
  | ok (text : String) : DocxResult
  | err : DocxResult

/-- The DOCX content type string. -/
def docxContentType : String :=
  "application/vnd.openxmlformats-officedocument.wordprocessingml.document"

/-- `extractTextFromFile(fileContent, contentType)`.  The `throw` for an
unsupported content type sits inside the function's own `try`, so it is
caught by the function's own `catch`, which returns `parsingFallbackText`;
the function as a whole never raises. -/
def extractTextFromFile (fileContent : List Nat) (contentType : String)
    (docx : DocxResult) : String :=
  if contentType = "application/pdf" then
    extractPdfText fileContent
  else if contentType = docxContentType then
    match docx with
    | DocxResult.ok t => t
    | DocxResult.err => parsingFallbackText
  else if contentType = "text/plain" then
    String.mk (utf8Decode (fileContent.length + 1) fileContent)
  else
    parsingFallbackText

example : String.mk (pdfTier1 "xx BT hello contract ET yy".data) = "BT hello contract ET" := by rfl

example : extractPdfText [] = pdfPlaceholder := by rfl

example : 100 ≤ pdfPlaceholder.length := by decide

/-! ### Analysis orchestrator (`analyzeContractWithAI` and the analyze handler) -/

/-- `String.prototype.substring(0, n)`. -/
def jsSubstring (s : String) (n : Nat) : String := String.mk (s.data.take n)

/-- Prompt text before the filename interpolation. -/
def promptPart1 : String :=
  "\nYou are a legal AI assistant specializing in contract analysis. Analyze the following contract and provide a comprehensive review.\n\nContract filename: "

/-- Prompt text between the filename and the truncated contract text. -/
def promptPart2 : String := "\n\nContract text:\n"

/-- The output-schema instruction sentence of the prompt. -/
def schemaInstruction : String :=
  "Please analyze this contract and return ONLY valid JSON in this exact format:"

/-- The JSON format template embedded in the prompt. -/
def schemaFormatBlock : String :=
  "\x7b\n  \"risk_score\": [number from 1-10, where 10 is highest risk],\n  \"overall_summary\": \"[2-3 sentence executive summary]\",\n  \"key_terms\": \x7b\n    \"payment_terms\": \"[description of payment terms]\",\n    \"termination_clause\": \"[description of termination terms]\",\n    \"liability_limitations\": \"[description of liability terms]\",\n    \"intellectual_property\": \"[description of IP terms]\"\n  \x7d,\n  \"risks\": [\n    \x7b\n      \"category\": \"[risk category like \x27payment\x27, \x27termination\x27, \x27liability\x27, etc.]\",\n      \"severity\": [number from 1-10],\n      \"description\": \"[specific risk description]\",\n      \"recommendation\": \"[specific actionable recommendation]\"\n    \x7d\n  ],\n  \"missing_clauses\": [\n    \"[description of important missing clauses]\"\n  ],\n  \"recommendations\": [\n    \"[specific actionable recommendations for improvement]\"\n  ],\n  \"red_flags\": [\n    \"[any major red flags or concerning terms]\"\n  ]\n\x7d"

/-- Prompt text after the truncated contract text (schema instruction,
format template, closing guidance). -/
def promptPart3 : String :=
  "\n\n" ++ schemaInstruction ++ "\n" ++ schemaFormatBlock ++
  "\n\nFocus on practical business risks and actionable recommendations. Be specific and professional.\n  "

/-- The bounded prompt of `analyzeContractWithAI`: the contract text is
truncated to its first 4000 characters before interpolation. -/
def buildPrompt (contractText filename : String) : String :=
  promptPart1 ++ filename ++ promptPart2 ++ jsSubstring contractText 4000 ++ promptPart3

/-- Behaviour of the Bedrock model collaborator on one invocation: either a
failure of any kind before reply text is obtained (transport error, timeout,
undecodable response envelope) or the free-form text of the reply. -/
inductive ModelOutcome where
  | failure : ModelOutcome
  | text (s : String) : ModelOutcome

/-- `aiResponse.match(/\x7b[\s\S]*\x7d/)`: the greedy regex matches from the
first opening brace to the last closing brace, provided the latter comes
after the former. -/
def extractJsonSubstring (s : String) : Option String :=
  let cs := s.data
  match cs.findIdx? (fun c => c.toNat = 123) with
  | none => none
  | some i =>
    match cs.reverse.findIdx? (fun c => c.toNat = 125) with
    | none => none
    | some rj =>
      let j := cs.length - 1 - rj
      if i < j then some (String.mk ((cs.drop i).take (j - i + 1))) else none

/-- `getFallbackAnalysis()`: the fixed fallback `AnalysisResult`. -/
def getFallbackAnalysis : Json :=
  Json.obj [
    ("risk_score", Json.num 5),
    ("overall_summary", Json.str "Contract analysis temporarily unavailable. Manual review recommended for critical terms and conditions."),
    ("key_terms", Json.obj [
      ("payment_terms", Json.str "Review payment schedule and terms"),
      ("termination_clause", Json.str "Check termination notice requirements"),
      ("liability_limitations", Json.str "Verify liability and indemnification clauses"),
      ("intellectual_property", Json.str "Confirm IP ownership and licensing terms")]),
    ("risks", Json.arr [Json.obj [
      ("category", Json.str "system"),
      ("severity", Json.num 3),
      ("description", Json.str "Automated analysis temporarily unavailable"),
      ("recommendation", Json.str "Conduct manual legal review of all key terms")]]),
    ("missing_clauses", Json.arr [
      Json.str "Automated clause detection unavailable - manual review needed"]),
    ("recommendations", Json.arr [
      Json.str "Conduct thorough manual review of all contract terms",
      Json.str "Verify all key business terms are clearly defined",
      Json.str "Ensure proper legal review before signing"]),
    ("red_flags", Json.arr [
      Json.str "Manual review required - automated analysis unavailable"])]

/-- `analyzeContractWithAI(contractText, filename)`, with the model
collaborator's behaviour passed in as a function of the prompt.  A model
failure, a reply without a brace-delimited substring, and a substring that
`JSON.parse` rejects all fall back to `getFallbackAnalysis`; a successfully
parsed substring is returned as the analysis without any shape validation
(`return analysisJson` in the source). -/
def analyzeContractWithAI (model : String → ModelOutcome)
    (contractText filename : String) : Json :=
  match model (buildPrompt contractText filename) with
  | ModelOutcome.failure => getFallbackAnalysis
  | ModelOutcome.text aiResponse =>
    match extractJsonSubstring aiResponse with
    | none => getFallbackAnalysis
    | some sub =>
      match parseJson sub with
      | none => getFallbackAnalysis
      | some analysisJson => analysisJson

/-- Is the JSON value a string? -/
def isStr : Json → Bool
  | Json.str _ => true
  | _ => false

/-- Is the JSON value an integer in the closed interval `[lo, hi]`? -/
def isIntIn (lo hi : Int) : Json → Bool
  | Json.num n => decide (lo ≤ n) && decide (n ≤ hi)
  | _ => false

/-- Is the JSON value a well-shaped entry of `risks`? -/
def isRiskEntry (j : Json) : Bool :=
  ((j.getField "category").map isStr).getD false &&
  ((j.getField "severity").map (isIntIn 1 10)).getD false &&
  ((j.getField "description").map isStr).getD false &&
  ((j.getField "recommendation").map isStr).getD false

/-- Is the JSON value an array of strings? -/
def isStrArr : Json → Bool
  | Json.arr xs => xs.all isStr
  | _ => false

/-- Schema validity of an `AnalysisResult`, following the words of the spec
(section 3): all required fields present, `riskScore` an integer in [1,10],
`keyTerms` with its four string slots, every `risks[i]` an object with a
string category/description/recommendation and an integer severity in
[1,10], and the three string sequences.  This is the spec-side checker used
to state the claims; the source performs no such validation anywhere. -/
def isValidAnalysisResult (j : Json) : Bool :=
  ((j.getField "risk_score").map (isIntIn 1 10)).getD false &&
  ((j.getField "overall_summary").map isStr).getD false &&
  ((j.getField "key_terms").map (fun kt =>
    ((kt.getField "payment_terms").map isStr).getD false &&
    ((kt.getField "termination_clause").map isStr).getD false &&
    ((kt.getField "liability_limitations").map isStr).getD false &&
    ((kt.getField "intellectual_property").map isStr).getD false)).getD false &&
  ((j.getField "risks").map (fun r =>
    match r with
    | Json.arr xs => xs.all isRiskEntry
    | _ => false)).getD false &&
  ((j.getField "missing_clauses").map isStrArr).getD false &&
  ((j.getField "recommendations").map isStrArr).getD false &&
  ((j.getField "red_flags").map isStrArr).getD false

/-- A stored contract record (DynamoDB item).  Attributes read defensively
by the code are `Option`s. -/
structure DbRecord where
  contract_id : String
  filename : String
  content_type : String
  status : Option String
  created_at : Nat
  analysis : Option Json

/-- Response of the analyze handler (status code plus body fields). -/
structure AnalyzeResponse where
  statusCode : Nat
  status : Option String
  analysis : Option Json

/-- The analyze lambda handler for a request carrying a `contract_id`: the
stored record (or `none` when the id is unknown), the blob bytes fetched
from S3, the mammoth behaviour and the model behaviour are the collaborator
inputs.  Record-store and blob-store accesses are modelled as succeeding
(the claims quantify over model failures, not storage failures); the
status-update step's exceptions are swallowed by the source and have no
observable effect on the response. -/
def analyzeHandler (record : Option DbRecord) (blob : List Nat)
    (docx : DocxResult) (model : String → ModelOutcome) : AnalyzeResponse :=
  match record with
  | none => { statusCode := 404, status := none, analysis := none }
  | some contract =>
    let contractText := extractTextFromFile blob contract.content_type docx
    let analysis := analyzeContractWithAI model contractText contract.filename
    { statusCode := 200, status := some "completed", analysis := some analysis }

example : extractJsonSubstring "junk \x7b\"a\":1\x7d tail" = some "\x7b\"a\":1\x7d" := by rfl

example : isValidAnalysisResult getFallbackAnalysis = true := by rfl

example : analyzeContractWithAI (fun _ => ModelOutcome.failure) "t" "f" = getFallbackAnalysis := by rfl

example : analyzeContractWithAI (fun _ => ModelOutcome.text "no braces here") "t" "f" = getFallbackAnalysis := by rfl

example :
    analyzeContractWithAI (fun _ => ModelOutcome.text "\x7b\"risk_score\": 99\x7d") "t" "f" =
      Json.obj [("risk_score", Json.num 99)] := by rfl

/-! ### Ingestion component (the upload lambda handler) -/

/-- An upload request body.  `file_data` is `none` when the attribute is
absent; the empty string is also falsy at the `!file_data` check. -/
structure UploadRequest where
  filename : String
  file_data : Option String
  content_type : Option String

/-- The record written by the upload handler on success. -/
structure UploadedRecord where
  filename : String
  content_type : String
  status : String

/-- Observable outcome of one upload invocation: the HTTP status code, the
effects on the blob store and the record store, and how many compensating
blob deletes were attempted. -/
structure UploadOutcome where
  statusCode : Nat
  blobPutAttempted : Bool
  blobPresent : Bool
  recordPutAttempted : Bool
  record : Option UploadedRecord
  deleteAttempts : Nat

/-- The upload lambda handler, with the success of the S3 put, the DynamoDB
put and the compensating S3 delete as collaborator inputs.  The handler
validates only the presence of `file_data`; the declared `content_type` is
defaulted to `application/pdf` and stored without any validation.  The
base64 decode of Node's `Buffer.from(file_data, 'base64')` never throws, so
its `catch` branch is dead code. -/
def uploadHandler (req : UploadRequest) (blobOk recordOk deleteOk : Bool) :
    UploadOutcome :=
  let noFileData :=
    match req.file_data with
    | none => true
    | some fd => fd = ""
  if noFileData then
    { statusCode := 400, blobPutAttempted := false, blobPresent := false,
      recordPutAttempted := false, record := none, deleteAttempts := 0 }
  else
    let content_type := req.content_type.getD "application/pdf"
    if blobOk then
      if recordOk then
        { statusCode := 200, blobPutAttempted := true, blobPresent := true,
          recordPutAttempted := true,
          record := some { filename := req.filename, content_type := content_type,
                           status := "uploaded" },
          deleteAttempts := 0 }
      else
        { statusCode := 500, blobPutAttempted := true,
          blobPresent := !deleteOk,
          recordPutAttempted := true, record := none, deleteAttempts := 1 }
    else
      { statusCode := 500, blobPutAttempted := true, blobPresent := false,
        recordPutAttempted := false, record := none, deleteAttempts := 0 }

/-! ### Results query component (`getContractAnalysis` and `listContracts`) -/

/-- Response of `getContractAnalysis` (status code plus body fields). -/
structure GetResponse where
  statusCode : Nat
  status : Option String
  message : Option String
  error : Option String
  analysis : Option Json

/-- `getContractAnalysis(contractId)` as a function of the DynamoDB item
found for the id (`none` when absent). -/
def getContractAnalysis (item : Option DbRecord) : GetResponse :=
  match item with
  | none =>
    { statusCode := 404, status := none, message := none,
      error := some "Contract not found", analysis := none }
  | some contract =>
    if contract.status = some "uploaded" then
      { statusCode := 202, status := some "uploaded",
        message := some "Contract uploaded but analysis not started",
        error := none, analysis := none }
    else if contract.status = some "analyzing" then
      { statusCode := 202, status := some "analyzing",
        message := some "Analysis in progress", error := none, analysis := none }
    else if contract.status ≠ some "completed" then
      { statusCode := 500, status := some (contract.status.getD "unknown"),
        message := none, error := some "Analysis failed or status unknown",
        analysis := none }
    else
      { statusCode := 200, status := contract.status, message := none,
        error := none,
        analysis := some (contract.analysis.getD (Json.obj [])) }

/-- The aggregate summary block of a list response.  `uploaded` is the
remainder `total - completed - analyzing` (JS number arithmetic, hence
`Int`). -/
structure ListSummary where
  total : Nat
  completed : Nat
  analyzing : Nat
  uploaded : Int

/-- The pagination block of a list response. -/
structure ListPagination where
  limit : Nat
  has_more : Bool

/-- Response of `listContracts`. -/
structure ListResponse where
  statusCode : Nat
  contracts : List DbRecord
  summary : ListSummary
  pagination : ListPagination

/-- Creation-time-descending order: the order imposed by the JS comparator
`(a, b) => bDate - aDate`. -/
def createdDescRel (a b : DbRecord) : Prop := b.created_at ≤ a.created_at

instance : DecidableRel createdDescRel := fun _ _ => Nat.decLe _ _

instance : IsTotal DbRecord createdDescRel := ⟨fun _ _ => Nat.le_total _ _⟩

instance : IsTrans DbRecord createdDescRel := ⟨fun _ _ _ hab hbc => Nat.le_trans hbc hab⟩

/-- The in-place JS sort with comparator `(a, b) => bDate - aDate`.  The
ECMAScript sort contract (stable, consistent with the comparator)
determines the result uniquely for a total preorder key, and stable
insertion sort realises it. -/
def sortByCreatedDesc (l : List DbRecord) : List DbRecord :=
  List.insertionSort createdDescRel l

/-- `listContracts(limit, statusFilter)` as a function of the store
contents in DynamoDB scan order.  `Limit` is passed to the `ScanCommand`,
so DynamoDB evaluates at most `min limit 100` items, applies the optional
status filter to those, and reports `LastEvaluatedKey` exactly when the
scan stopped before the end of the table. -/
def listContracts (store : List DbRecord) (limit : Nat)
    (statusFilter : Option String) : ListResponse :=
  let scanLimit := min limit 100
  let scanned := store.take scanLimit
  let items :=
    match statusFilter with
    | none => scanned
    | some f => scanned.filter (fun c => c.status = some f)
  let hasLastEvaluatedKey := decide (scanLimit < store.length)
  let contracts := sortByCreatedDesc items
  let totalContracts := contracts.length
  let completedContracts := (contracts.filter (fun c => c.status = some "completed")).length
  let analyzingContracts := (contracts.filter (fun c => c.status = some "analyzing")).length
  { statusCode := 200,
    contracts := contracts,
    summary :=
      { total := totalContracts, completed := completedContracts,
        analyzing := analyzingContracts,
        uploaded := (totalContracts : Int) - completedContracts - analyzingContracts },
    pagination := { limit := limit, has_more := hasLastEvaluatedKey } }

/-! ### Claims -/

/-- A concrete plain-text record for instantiating the analyze handler. -/
def sampleRecord : DbRecord :=
  { contract_id := "c-1", filename := "contract.txt", content_type := "text/plain",
    status := some "analyzing", created_at := 1000, analysis := none }

/-- A model outcome from which no analysis object can be decoded: an
invocation failure, or reply text whose brace-delimited substring (if any)
`JSON.parse` rejects. -/
def UndecodableOutcome (mo : ModelOutcome) : Prop :=
  mo = ModelOutcome.failure ∨
  ∃ s, mo = ModelOutcome.text s ∧ (extractJsonSubstring s).bind parseJson = none

/-- Any undecodable model outcome makes `analyzeContractWithAI` return the
fixed fallback analysis. -/
theorem analyzeContractWithAI_undecodable (model : String → ModelOutcome)
    (contractText filename : String)
    (h : UndecodableOutcome (model (buildPrompt contractText filename))) :
    analyzeContractWithAI model contractText filename = getFallbackAnalysis := by
  rcases h with h | ⟨s, hs, hparse⟩
  · unfold analyzeContractWithAI
    rw [h]
  · rcases hE : extractJsonSubstring s with _ | sub
    · simp [analyzeContractWithAI, hs, hE]
    · rw [hE, Option.some_bind] at hparse
      simp [analyzeContractWithAI, hs, hE, hparse]

/-- C1 (counterexample): when the model reply contains JSON that parses but
does not match the `AnalysisResult` shape, the analyze handler still
reports `completed` and returns that unvalidated object as the analysis —
the shape-validation failure is NOT treated like an invocation failure and
the fallback is NOT substituted, so the returned analysis is not
schema-valid. -/
theorem C1_counterexample :
    (analyzeHandler (some sampleRecord) [] DocxResult.err
        (fun _ => ModelOutcome.text "\x7b\"risk_score\": 99\x7d")).status = some "completed" ∧
    (analyzeHandler (some sampleRecord) [] DocxResult.err
        (fun _ => ModelOutcome.text "\x7b\"risk_score\": 99\x7d")).analysis =
      some (Json.obj [("risk_score", Json.num 99)]) ∧
    isValidAnalysisResult (Json.obj [("risk_score", Json.num 99)]) = false :=
  ⟨rfl, rfl, rfl⟩

/-- C1 (amended): for every valid id, `analyze` terminates with status 200 /
`completed`; a model invocation failure, a reply without a brace-delimited
substring, and a substring that fails to decode as JSON all yield the fixed
fallback analysis, which is schema-valid.  (A reply whose extracted JSON
parses but has the wrong shape is returned as-is, per the counterexample.) -/
theorem C1_amended_fallback (record : DbRecord) (blob : List Nat)
    (docx : DocxResult) (model : String → ModelOutcome)
    (h : UndecodableOutcome (model (buildPrompt
      (extractTextFromFile blob record.content_type docx) record.filename))) :
    (analyzeHandler (some record) blob docx model).statusCode = 200 ∧
    (analyzeHandler (some record) blob docx model).status = some "completed" ∧
    (analyzeHandler (some record) blob docx model).analysis = some getFallbackAnalysis ∧
    isValidAnalysisResult getFallbackAnalysis = true := by
  refine ⟨rfl, rfl, ?_, rfl⟩
  show some (analyzeContractWithAI model
    (extractTextFromFile blob record.content_type docx) record.filename) = _
  rw [analyzeContractWithAI_undecodable _ _ _ h]

/-- C1 (witness): the amended theorem at a concrete record and a model that
fails outright. -/
theorem C1_witness :
    (analyzeHandler (some sampleRecord) [] DocxResult.err
        (fun _ => ModelOutcome.failure)).status = some "completed" ∧
    (analyzeHandler (some sampleRecord) [] DocxResult.err
        (fun _ => ModelOutcome.failure)).analysis = some getFallbackAnalysis := by
  have h := C1_amended_fallback sampleRecord [] DocxResult.err
    (fun _ => ModelOutcome.failure) (Or.inl rfl)
  exact ⟨h.2.1, h.2.2.1⟩

/-- A store record with a given id index, status and creation time. -/
def mkStoreRec (n : Nat) (st : String) (t : Nat) : DbRecord :=
  { contract_id := "c-" ++ toString n, filename := "f.pdf",
    content_type := "application/pdf", status := some st, created_at := t,
    analysis := none }

/-- A store of 8 completed + 2 analyzing + 1 uploaded records, in DynamoDB
scan order. -/
def elevenStore : List DbRecord :=
  [mkStoreRec 1 "completed" 11, mkStoreRec 2 "completed" 10,
   mkStoreRec 3 "analyzing" 9, mkStoreRec 4 "uploaded" 8,
   mkStoreRec 5 "completed" 7, mkStoreRec 6 "completed" 6,
   mkStoreRec 7 "completed" 5, mkStoreRec 8 "completed" 4,
   mkStoreRec 9 "completed" 3, mkStoreRec 10 "completed" 2,
   mkStoreRec 11 "analyzing" 1]

/-- C2 (counterexample): on a store of 8 completed + 2 analyzing +
1 uploaded records, `list(limit=5)` computes its summary over the five
scanned records only — `summary.total` is 5, not 11 as the claim states
(the `Limit` is passed to the DynamoDB scan itself, so the aggregate is
over the returned page, not the entire filtered set). -/
theorem C2_counterexample :
    (elevenStore.filter (fun c => c.status = some "completed")).length = 8 ∧
    (elevenStore.filter (fun c => c.status = some "analyzing")).length = 2 ∧
    (elevenStore.filter (fun c => c.status = some "uploaded")).length = 1 ∧
    elevenStore.length = 11 ∧
    (listContracts elevenStore 5 none).summary.total = 5 ∧
    (listContracts elevenStore 5 none).summary.completed = 3 ∧
    (listContracts elevenStore 5 none).summary.analyzing = 1 ∧
    (listContracts elevenStore 5 none).summary.uploaded = 1 ∧
    (listContracts elevenStore 5 none).contracts.length = 5 ∧
    (listContracts elevenStore 5 none).pagination.has_more = true := by
  refine ⟨rfl, rfl, rfl, rfl, ?_, ?_, ?_, ?_, ?_, rfl⟩ <;> rfl

/-- C2 (amended): `list` scans at most `min(limit, 100)` records, filters
those, sorts them by creation time descending, and computes the summary
over the returned page (not the entire filtered store); `hasMore` reports
whether the scan stopped before the end of the table. -/
theorem C2_amended (store : List DbRecord) (limit : Nat) (filt : Option String) :
    (listContracts store limit filt).summary.total =
      (listContracts store limit filt).contracts.length ∧
    (listContracts store limit filt).summary.completed =
      ((listContracts store limit filt).contracts.filter
        (fun c => c.status = some "completed")).length ∧
    (listContracts store limit filt).summary.analyzing =
      ((listContracts store limit filt).contracts.filter
        (fun c => c.status = some "analyzing")).length ∧
    (listContracts store limit filt).contracts.length ≤ min limit 100 ∧
    (listContracts store limit filt).contracts.Perm
      (match filt with
       | none => store.take (min limit 100)
       | some f => (store.take (min limit 100)).filter (fun c => c.status = some f)) ∧
    List.Sorted createdDescRel (listContracts store limit filt).contracts ∧
    (listContracts store limit filt).pagination.has_more =
      decide (min limit 100 < store.length) := by
  refine ⟨rfl, rfl, rfl, ?_, ?_, ?_, rfl⟩
  · show (sortByCreatedDesc _).length ≤ min limit 100
    rw [sortByCreatedDesc, List.length_insertionSort]
    cases filt with
    | none =>
      exact List.length_take_le _ _
    | some f =>
      calc (List.filter _ (store.take (min limit 100))).length
          ≤ (store.take (min limit 100)).length := List.length_filter_le _ _
        _ ≤ min limit 100 := List.length_take_le _ _
  · show (sortByCreatedDesc _).Perm _
    cases filt with
    | none => exact List.perm_insertionSort createdDescRel _
    | some f => exact List.perm_insertionSort createdDescRel _
  · exact List.sorted_insertionSort createdDescRel _

/-- C10: in every list response the summary counts add up,
`completed + analyzing + uploaded = total`, because `uploaded` is the
remainder `total - completed - analyzing`; and that remainder equals the
number of returned records whose status is neither `completed` nor
`analyzing` (so any other status is counted as `uploaded`). -/
theorem C10_summary_partition (store : List DbRecord) (limit : Nat)
    (filt : Option String) :
    ((listContracts store limit filt).summary.completed : Int) +
        (listContracts store limit filt).summary.analyzing +
        (listContracts store limit filt).summary.uploaded =
      (listContracts store limit filt).summary.total ∧
    (listContracts store limit filt).summary.uploaded =
      (((listContracts store limit filt).contracts.filter
        (fun c => ¬(c.status = some "completed") ∧ ¬(c.status = some "analyzing"))).length : Int) := by
  have hup : (listContracts store limit filt).summary.uploaded =
      ((listContracts store limit filt).summary.total : Int) -
      (listContracts store limit filt).summary.completed -
      (listContracts store limit filt).summary.analyzing := rfl
  have htot : (listContracts store limit filt).summary.total =
      (listContracts store limit filt).contracts.length := rfl
  have hcmp : (listContracts store limit filt).summary.completed =
      ((listContracts store limit filt).contracts.filter
        (fun c => c.status = some "completed")).length := rfl
  have hana : (listContracts store limit filt).summary.analyzing =
      ((listContracts store limit filt).contracts.filter
        (fun c => c.status = some "analyzing")).length := rfl
  have key : ∀ l : List DbRecord,
      l.length =
        (l.filter (fun c => c.status = some "completed")).length +
        (l.filter (fun c => c.status = some "analyzing")).length +
        (l.filter (fun c =>
          ¬(c.status = some "completed") ∧ ¬(c.status = some "analyzing"))).length := by
    intro l
    induction l with
    | nil => rfl
    | cons x xs ih =>
      by_cases h1 : x.status = some "completed"
      · have h2 : ¬(x.status = some "analyzing") := by rw [h1]; simp
        simp only [List.filter_cons, h1, h2, List.length_cons]
        simp at ih ⊢
        omega
      · by_cases h2 : x.status = some "analyzing"
        · simp only [List.filter_cons, h1, h2, List.length_cons]
          simp at ih ⊢
          omega
        · simp only [List.filter_cons, h1, h2, List.length_cons]
          simp [h1, h2] at ih ⊢
          omega
  have hk := key ((listContracts store limit filt).contracts)
  constructor
  · omega
  · omega

/-- A concrete upload request with an unsupported declared content type. -/
def pngUpload : UploadRequest :=
  { filename := "image.png", file_data := some "QUFBQQ==",
    content_type := some "image/png" }

/-- C3 (counterexample): an upload whose declared content type is
unsupported (`image/png`) is not rejected: with working stores it returns
200 and creates both the blob and the record (storing the unsupported
content type verbatim), contrary to the claimed `ValidationError` with no
orphaned state. -/
theorem C3_counterexample :
    (uploadHandler pngUpload true true true).statusCode = 200 ∧
    (uploadHandler pngUpload true true true).record =
      some { filename := "image.png", content_type := "image/png",
             status := "uploaded" } ∧
    (uploadHandler pngUpload true true true).blobPresent = true :=
  ⟨rfl, rfl, rfl⟩

/-- C3 (amended): `submit` does not validate the declared content type at
all — the only validation is the presence of non-empty `file_data`
(rejected with 400 before any side effect); any declared content type,
defaulted to `application/pdf` when absent, is accepted and stored. -/
theorem C3_amended (req : UploadRequest) (blobOk recordOk deleteOk : Bool) :
    (req.file_data = none ∨ req.file_data = some "" →
      uploadHandler req blobOk recordOk deleteOk =
        { statusCode := 400, blobPutAttempted := false, blobPresent := false,
          recordPutAttempted := false, record := none, deleteAttempts := 0 }) ∧
    (∀ fd, req.file_data = some fd → fd ≠ "" → blobOk = true → recordOk = true →
      (uploadHandler req blobOk recordOk deleteOk).statusCode = 200 ∧
      (uploadHandler req blobOk recordOk deleteOk).record =
        some { filename := req.filename,
               content_type := req.content_type.getD "application/pdf",
               status := "uploaded" }) := by
  constructor
  · intro h
    rcases h with h | h <;> simp [uploadHandler, h]
  · intro fd hfd hne hb hr
    subst hb; subst hr
    constructor <;> simp [uploadHandler, hfd, hne]

/-- C3 (witness): the amended theorem at a request without file data and at
the concrete unsupported-type request. -/
theorem C3_witness :
    (uploadHandler { filename := "a.txt", file_data := none, content_type := none }
        true true true).statusCode = 400 ∧
    (uploadHandler pngUpload true true true).statusCode = 200 := by
  have h1 := (C3_amended { filename := "a.txt", file_data := none, content_type := none }
    true true true).1 (Or.inl rfl)
  have h2 := (C3_amended pngUpload true true true).2 "QUFBQQ==" rfl (by decide) rfl rfl
  exact ⟨by rw [h1], h2.1⟩

/-- C4 (counterexample): text extraction invoked with an unsupported
declared format does not fail — the `throw` is caught by the function's own
`catch`, which returns the fixed parsing-fallback placeholder text. -/
theorem C4_counterexample :
    extractTextFromFile [] "image/png" DocxResult.err = parsingFallbackText :=
  rfl

/-- C4 (amended): for every declared format outside the supported three
(PDF, DOCX, plain text), extraction returns the parsing-fallback
placeholder text — the same degradation used for parsing failures within a
supported format — and never raises an `ExtractionError`. -/
theorem C4_amended (fileContent : List Nat) (contentType : String)
    (docx : DocxResult)
    (h1 : contentType ≠ "application/pdf") (h2 : contentType ≠ docxContentType)
    (h3 : contentType ≠ "text/plain") :
    extractTextFromFile fileContent contentType docx = parsingFallbackText := by
  unfold extractTextFromFile
  simp [h1, h2, h3]

/-- C4 (witness): the amended theorem at a concrete unsupported format. -/
theorem C4_witness :
    extractTextFromFile [1, 2, 3] "application/zip" (DocxResult.ok "ignored") =
      parsingFallbackText :=
  C4_amended [1, 2, 3] "application/zip" (DocxResult.ok "ignored")
    (by decide) (by decide) (by decide)

/-- C5: PDF extraction follows the three-tier structure of the source —
tier 1 (`BT..ET` spans, non-printables stripped) is kept only if it reaches
50 characters; otherwise tier 2 (printable runs of length at least 20) is
used; whatever survives is replaced by the fixed placeholder contract when
shorter than 100 characters.  Consequently every PDF input extracts to at
least 100 characters of text and the PDF path never errors. -/
theorem C5_pdf_three_tiers (bytes : List Nat) :
    (50 ≤ (String.mk (pdfTier1 (latin1Decode bytes))).length →
      100 ≤ (String.mk (pdfTier1 (latin1Decode bytes))).length →
      extractPdfText bytes = String.mk (pdfTier1 (latin1Decode bytes))) ∧
    ((String.mk (pdfTier1 (latin1Decode bytes))).length < 50 →
      100 ≤ (String.mk (pdfTier2 (latin1Decode bytes))).length →
      extractPdfText bytes = String.mk (pdfTier2 (latin1Decode bytes))) ∧
    (50 ≤ (String.mk (pdfTier1 (latin1Decode bytes))).length →
      (String.mk (pdfTier1 (latin1Decode bytes))).length < 100 →
      extractPdfText bytes = pdfPlaceholder) ∧
    ((String.mk (pdfTier1 (latin1Decode bytes))).length < 50 →
      (String.mk (pdfTier2 (latin1Decode bytes))).length < 100 →
      extractPdfText bytes = pdfPlaceholder) ∧
    100 ≤ (extractPdfText bytes).length ∧
    (∀ docx, extractTextFromFile bytes "application/pdf" docx = extractPdfText bytes) := by
  have hemp : ∀ l : List Char, String.mk l = "" → (String.mk l).length = 0 := by
    intro l h
    rw [h]
    rfl
  have hph : 100 ≤ pdfPlaceholder.length := by decide
  refine ⟨?_, ?_, ?_, ?_, ?_, fun docx => rfl⟩
  · intro h50 h100
    have hA : ¬(String.mk (pdfTier1 (latin1Decode bytes)) = "" ∨
        (String.mk (pdfTier1 (latin1Decode bytes))).length < 50) := by
      rintro (h | h)
      · have := hemp _ h
        omega
      · omega
    have hB : ¬(String.mk (pdfTier1 (latin1Decode bytes)) = "" ∨
        (String.mk (pdfTier1 (latin1Decode bytes))).length < 100) := by
      rintro (h | h)
      · have := hemp _ h
        omega
      · omega
    simp only [extractPdfText]
    rw [if_neg hA, if_neg hB]
  · intro h50 h100
    have hB : ¬(String.mk (pdfTier2 (latin1Decode bytes)) = "" ∨
        (String.mk (pdfTier2 (latin1Decode bytes))).length < 100) := by
      rintro (h | h)
      · have := hemp _ h
        omega
      · omega
    simp only [extractPdfText]
    rw [if_pos (Or.inr h50), if_neg hB]
  · intro h50 h100
    have hA : ¬(String.mk (pdfTier1 (latin1Decode bytes)) = "" ∨
        (String.mk (pdfTier1 (latin1Decode bytes))).length < 50) := by
      rintro (h | h)
      · have := hemp _ h
        omega
      · omega
    simp only [extractPdfText]
    rw [if_neg hA, if_pos (Or.inr h100)]
  · intro h50 h100
    simp only [extractPdfText]
    rw [if_pos (Or.inr h50), if_pos (Or.inr h100)]
  · simp only [extractPdfText]
    by_cases hA : String.mk (pdfTier1 (latin1Decode bytes)) = "" ∨
        (String.mk (pdfTier1 (latin1Decode bytes))).length < 50
    · rw [if_pos hA]
      by_cases hB : String.mk (pdfTier2 (latin1Decode bytes)) = "" ∨
          (String.mk (pdfTier2 (latin1Decode bytes))).length < 100
      · rw [if_pos hB]
        exact hph
      · rw [if_neg hB]
        rw [not_or] at hB
        omega
    · rw [if_neg hA]
      by_cases hB : String.mk (pdfTier1 (latin1Decode bytes)) = "" ∨
          (String.mk (pdfTier1 (latin1Decode bytes))).length < 100
      · rw [if_pos hB]
        exact hph
      · rw [if_neg hB]
        rw [not_or] at hB
        omega

/-- C5 (witness): on an empty PDF both tiers are empty and the placeholder
is returned, which is at least 100 characters long. -/
theorem C5_witness :
    extractPdfText [] = pdfPlaceholder ∧ 100 ≤ (extractPdfText []).length := by
  have h := C5_pdf_three_tiers []
  exact ⟨h.2.2.2.1 (by decide) (by decide), h.2.2.2.2.1⟩

/-- C6: ingestion failure semantics.  If the blob write succeeds and the
record write fails, exactly one best-effort compensating blob delete is
attempted (its own failure is absorbed, leaving the orphaned blob), no
record exists and an error is returned; if the blob write itself fails, an
error is returned with no record written and no record write attempted. -/
theorem C6_compensation (req : UploadRequest) (fd : String)
    (hfd : req.file_data = some fd) (hne : fd ≠ "") (deleteOk : Bool) :
    ((uploadHandler req true false deleteOk).deleteAttempts = 1 ∧
     (uploadHandler req true false deleteOk).record = none ∧
     (uploadHandler req true false deleteOk).statusCode = 500 ∧
     (uploadHandler req true false deleteOk).blobPresent = !deleteOk) ∧
    (∀ recordOk,
     (uploadHandler req false recordOk deleteOk).statusCode = 500 ∧
     (uploadHandler req false recordOk deleteOk).recordPutAttempted = false ∧
     (uploadHandler req false recordOk deleteOk).record = none ∧
     (uploadHandler req false recordOk deleteOk).deleteAttempts = 0) := by
  constructor
  · refine ⟨?_, ?_, ?_, ?_⟩ <;> simp [uploadHandler, hfd, hne]
  · intro recordOk
    refine ⟨?_, ?_, ?_, ?_⟩ <;> simp [uploadHandler, hfd, hne]

/-- C6 (witness): the theorem at the concrete request, with a failing
compensating delete in the first scenario. -/
theorem C6_witness :
    (uploadHandler pngUpload true false false).deleteAttempts = 1 ∧
    (uploadHandler pngUpload true false false).blobPresent = true ∧
    (uploadHandler pngUpload false true false).recordPutAttempted = false := by
  have h := C6_compensation pngUpload "QUFBQQ==" rfl (by decide) false
  exact ⟨h.1.1, h.1.2.2.2, (h.2 true).2.1⟩

/-- C7: the prompt embeds at most the first 4000 characters of the
extracted contract text — the prompt built from any text equals the prompt
built from its 4000-character truncation, whose length is at most 4000 —
and the prompt consists of the fixed parts (including the explicit
output-schema instruction and format template) around that truncation. -/
theorem C7_prompt_truncation (contractText filename : String) :
    buildPrompt contractText filename =
      buildPrompt (jsSubstring contractText 4000) filename ∧
    (jsSubstring contractText 4000).length ≤ 4000 ∧
    buildPrompt contractText filename =
      promptPart1 ++ filename ++ promptPart2 ++ jsSubstring contractText 4000 ++
        ("\n\n" ++ schemaInstruction ++ "\n" ++ schemaFormatBlock ++
         "\n\nFocus on practical business risks and actionable recommendations. Be specific and professional.\n  ") := by
  refine ⟨?_, ?_, rfl⟩
  · unfold buildPrompt jsSubstring
    rw [List.take_take, Nat.min_self]
  · show (String.mk (contractText.data.take 4000)).length ≤ 4000
    show (contractText.data.take 4000).length ≤ 4000
    rw [List.length_take]
    omega

/-- C8: `getResult` on a record stored as `completed` but with no
`analysis` attribute returns a 200 success whose analysis is the empty
object (`contract.analysis || {}`), not an error and not a pending view —
the invariant "analysis present iff completed" is not enforced at read
time. -/
theorem C8_completed_without_analysis (c : DbRecord)
    (h1 : c.status = some "completed") (h2 : c.analysis = none) :
    getContractAnalysis (some c) =
      { statusCode := 200, status := some "completed", message := none,
        error := none, analysis := some (Json.obj []) } := by
  simp [getContractAnalysis, h1, h2]

/-- C8 (witness): the theorem at a concrete completed record without an
analysis attribute. -/
theorem C8_witness :
    getContractAnalysis (some
      { contract_id := "c-8", filename := "f.pdf",
        content_type := "application/pdf", status := some "completed",
        created_at := 5, analysis := none }) =
      { statusCode := 200, status := some "completed", message := none,
        error := none, analysis := some (Json.obj []) } :=
  C8_completed_without_analysis _ rfl rfl

/-- C9: `getResult` on an existing record whose stored status is none of
`uploaded` / `analyzing` / `completed` (including a missing status) returns
a 500 response carrying the stored status (or `unknown`), with no analysis
and no pending message. -/
theorem C9_unknown_status (c : DbRecord)
    (h1 : c.status ≠ some "uploaded") (h2 : c.status ≠ some "analyzing")
    (h3 : c.status ≠ some "completed") :
    (getContractAnalysis (some c)).statusCode = 500 ∧
    (getContractAnalysis (some c)).status = some (c.status.getD "unknown") ∧
    (getContractAnalysis (some c)).analysis = none ∧
    (getContractAnalysis (some c)).error = some "Analysis failed or status unknown" := by
  refine ⟨?_, ?_, ?_, ?_⟩ <;> simp [getContractAnalysis, h1, h2, h3]

/-- C9 (witness): the theorem at a record stored with status `failed` and
at a record with no status attribute. -/
theorem C9_witness :
    (getContractAnalysis (some
      { contract_id := "c-9", filename := "f.pdf",
        content_type := "application/pdf", status := some "failed",
        created_at := 6, analysis := none })).statusCode = 500 ∧
    (getContractAnalysis (some
      { contract_id := "c-9", filename := "f.pdf",
        content_type := "application/pdf", status := some "failed",
        created_at := 6, analysis := none })).status = some "failed" ∧
    (getContractAnalysis (some
      { contract_id := "c-10", filename := "f.pdf",
        content_type := "application/pdf", status := none,
        created_at := 7, analysis := none })).status = some "unknown" := by
  have h1 := C9_unknown_status
    { contract_id := "c-9", filename := "f.pdf",
      content_type := "application/pdf", status := some "failed",
      created_at := 6, analysis := none } (by decide) (by decide) (by decide)
  have h2 := C9_unknown_status
    { contract_id := "c-10", filename := "f.pdf",
      content_type := "application/pdf", status := none,
      created_at := 7, analysis := none } (by decide) (by decide) (by decide)
  exact ⟨h1.1, h1.2.1, h2.2.1⟩
